import Mathlib

/-!
Shallow embedding of `src/transaction/get.rs` from the `arweave-rs` repository.

The file models, in order:
* the data model (`Tag`, `TransactionData`, `TransactionConfirmedData`,
  `TransactionStatusResponse`) exactly as declared in the source;
* a JSON value type together with the serde-derived encoders and decoders
  for those structs (serde derive semantics: fields matched by name in any
  order, duplicate known fields rejected, unknown fields ignored, missing
  `Option` fields default to `none`, `usize`/`u8` range checks on numbers);
* the `pretend` framework behaviour declared by the `TransactionInfoFetch`
  trait: a `pretend::Result` value, the `JsonResult` envelope dispatch on the
  response status, and a transport-outcome type feeding it;
* the three client methods `get_price`, `get`, `get_status` of
  `TransactionInfoClient`, as pure functions from the framework result to an
  `Outcome` that distinguishes a normal `Result` return from a process abort
  (the Rust `panic!` / `expect` / `todo!` paths present in the source).
-/

namespace ArweaveRs

/-- Struct `Tag` of get.rs (lines 7-11): a name/value pair of strings. -/
structure Tag where
  name : String
  value : String
deriving DecidableEq

/-- Struct `TransactionData` of get.rs (lines 13-27), fields in declaration
order; `usize` is modelled as `Nat` (the 64-bit range restriction appears in
the JSON decoder) and `Vec<u8>` as a list of byte values. -/
structure TransactionData where
  format : Nat
  id : String
  last_tx : String
  owner : String
  tags : List Tag
  target : String
  quantity : String
  data : List Nat
  reward : String
  signature : String
  data_size : String
  data_root : String
deriving DecidableEq

/-- Struct `TransactionConfirmedData` of get.rs (lines 30-35). -/
structure TransactionConfirmedData where
  block_indep_hash : String
  block_height : Nat
  number_of_confirmations : Nat
deriving DecidableEq

/-- Struct `TransactionStatusResponse` of get.rs (lines 38-42); `confirmed`
is an `Option`, absent while the transaction has not entered a block. -/
structure TransactionStatusResponse where
  status : Nat
  confirmed : Option TransactionConfirmedData
deriving DecidableEq

/-- The repository error type used by get.rs. Its declaration lives in
`src/error.rs`, which is not among the provided sources; only the variant
actually constructed in get.rs, `ArweaveError::TransactionInfoError(String)`,
is modelled here. -/
inductive ArweaveError where
  | TransactionInfoError : String → ArweaveError
deriving DecidableEq

/-- Modelled from the spec: the textual rendering of an `ArweaveError` is
implemented in the missing `src/error.rs`; the spec (section 4.3) describes
every error kind as carrying its message, so rendering returns the carried
message. Only panic-message contents depend on this. -/
def ArweaveError.display : ArweaveError → String
  | .TransactionInfoError m => m

/-- JSON values, numbers restricted to integers (all numeric fields of the
schemas are integral). -/
inductive Json where
  | null : Json
  | bool : Bool → Json
  | num : Int → Json
  | str : String → Json
  | arr : List Json → Json
  | obj : List (String × Json) → Json

/-- Upper bound of `usize` on the 64-bit targets the crate builds for:
the literal value of `2 ^ 64`. -/
def usizeMax : Nat := 18446744073709551616

/-- Value bound to key `k`, provided `k` occurs exactly once: the serde
derived decoders reject both a missing and a duplicated known field. -/
def Json.fieldOnce (fields : List (String × Json)) (k : String) : Option Json :=
  match fields.filter (fun p => p.1 == k) with
  | [p] => some p.2
  | _ => none

/-- Optional field lookup: serde treats a missing `Option` field as `none`,
a present field is decoded, a duplicated field is rejected. -/
def Json.fieldOpt (fields : List (String × Json)) (k : String) : Option (Option Json) :=
  match fields.filter (fun p => p.1 == k) with
  | [] => some none
  | [p] => some (some p.2)
  | _ => none

/-- Decode a JSON string. -/
def Json.asString : Json → Option String
  | .str s => some s
  | _ => none

/-- Decode a `usize`: a non-negative integer below `2 ^ 64` (a negative
number is the `Int.negSucc` constructor and is rejected). -/
def Json.asUsize : Json → Option Nat
  | .num (.ofNat n) => if n < usizeMax then some n else none
  | _ => none

/-- Decode a `u8`: a non-negative integer below 256. -/
def Json.asByte : Json → Option Nat
  | .num (.ofNat n) => if n < 256 then some n else none
  | _ => none

/-- Decode each element of a JSON sequence, failing if any element fails
(serde sequence decoding). -/
def decodeSeq (d : Json → Option α) : List Json → Option (List α)
  | [] => some []
  | j :: js => do
      let x ← d j
      let xs ← decodeSeq d js
      pure (x :: xs)

/-- Decode a JSON array elementwise; any other shape is rejected (serde
decoding of `Vec<T>`). -/
def decodeArrWith (d : Json → Option α) : Json → Option (List α)
  | .arr xs => decodeSeq d xs
  | _ => none

/-- Decode an optional struct field (serde decoding of `Option<T>`): a
missing field and a `null` value give `none`, any other value is decoded. -/
def decodeOptField (d : Json → Option α) : Option Json → Option (Option α)
  | none => some none
  | some .null => some none
  | some j => (d j).map some

/-- serde-derived `Deserialize` for `Tag`. -/
def decodeTag : Json → Option Tag
  | .obj fields => do
      let n ← Json.fieldOnce fields "name" >>= Json.asString
      let v ← Json.fieldOnce fields "value" >>= Json.asString
      pure ⟨n, v⟩
  | _ => none

/-- serde-derived `Serialize` for `Tag`: an object with the struct's fields
in declaration order. -/
def encodeTag (t : Tag) : Json :=
  .obj [("name", .str t.name), ("value", .str t.value)]

/-- serde-derived `Deserialize` for `TransactionData`. -/
def decodeTransactionData : Json → Option TransactionData
  | .obj fields => do
      let f ← Json.fieldOnce fields "format" >>= Json.asUsize
      let i ← Json.fieldOnce fields "id" >>= Json.asString
      let lt ← Json.fieldOnce fields "last_tx" >>= Json.asString
      let ow ← Json.fieldOnce fields "owner" >>= Json.asString
      let tg ← Json.fieldOnce fields "tags" >>= decodeArrWith decodeTag
      let ta ← Json.fieldOnce fields "target" >>= Json.asString
      let qt ← Json.fieldOnce fields "quantity" >>= Json.asString
      let dt ← Json.fieldOnce fields "data" >>= decodeArrWith Json.asByte
      let re ← Json.fieldOnce fields "reward" >>= Json.asString
      let sg ← Json.fieldOnce fields "signature" >>= Json.asString
      let dsz ← Json.fieldOnce fields "data_size" >>= Json.asString
      let drt ← Json.fieldOnce fields "data_root" >>= Json.asString
      pure ⟨f, i, lt, ow, tg, ta, qt, dt, re, sg, dsz, drt⟩
  | _ => none

/-- Field list of the serde-derived `Serialize` for `TransactionData`:
fields in declaration order, `tags` as a JSON array of tag objects, `data`
as an array of byte values. -/
def encodeTxFields (t : TransactionData) : List (String × Json) :=
  [("format", .num (t.format : Int)),
   ("id", .str t.id),
   ("last_tx", .str t.last_tx),
   ("owner", .str t.owner),
   ("tags", .arr (t.tags.map encodeTag)),
   ("target", .str t.target),
   ("quantity", .str t.quantity),
   ("data", .arr (t.data.map (fun (b : Nat) => .num (b : Int)))),
   ("reward", .str t.reward),
   ("signature", .str t.signature),
   ("data_size", .str t.data_size),
   ("data_root", .str t.data_root)]

/-- serde-derived `Serialize` for `TransactionData`. -/
def encodeTransactionData (t : TransactionData) : Json :=
  .obj (encodeTxFields t)

/-- serde-derived `Deserialize` for `TransactionConfirmedData`. -/
def decodeTransactionConfirmedData : Json → Option TransactionConfirmedData
  | .obj fields => do
      let h ← Json.fieldOnce fields "block_indep_hash" >>= Json.asString
      let bh ← Json.fieldOnce fields "block_height" >>= Json.asUsize
      let nc ← Json.fieldOnce fields "number_of_confirmations" >>= Json.asUsize
      pure ⟨h, bh, nc⟩
  | _ => none

/-- Field list of the serde-derived `Serialize` for
`TransactionConfirmedData`. -/
def encodeConfirmedFields (c : TransactionConfirmedData) : List (String × Json) :=
  [("block_indep_hash", .str c.block_indep_hash),
   ("block_height", .num (c.block_height : Int)),
   ("number_of_confirmations", .num (c.number_of_confirmations : Int))]

/-- serde-derived `Serialize` for `TransactionConfirmedData`. -/
def encodeTransactionConfirmedData (c : TransactionConfirmedData) : Json :=
  .obj (encodeConfirmedFields c)

/-- serde-derived `Deserialize` for `TransactionStatusResponse`: the
`confirmed` field may be missing or `null` (both decode to `none`). -/
def decodeTransactionStatusResponse : Json → Option TransactionStatusResponse
  | .obj fields => do
      let st ← Json.fieldOnce fields "status" >>= Json.asUsize
      let copt ← Json.fieldOpt fields "confirmed"
      let c ← decodeOptField decodeTransactionConfirmedData copt
      pure ⟨st, c⟩
  | _ => none

/-- Field list of the serde-derived `Serialize` for
`TransactionStatusResponse`: a `none` `confirmed` field is serialized as
`null`. -/
def encodeStatusFields (r : TransactionStatusResponse) : List (String × Json) :=
  [("status", .num (r.status : Int)),
   ("confirmed",
     match r.confirmed with
     | none => .null
     | some c => encodeTransactionConfirmedData c)]

/-- serde-derived `Serialize` for `TransactionStatusResponse`. -/
def encodeTransactionStatusResponse (r : TransactionStatusResponse) : Json :=
  .obj (encodeStatusFields r)

/-- `pretend::JsonResult<T, E>` (used in the `TransactionInfoFetch` trait,
get.rs lines 43-53): carries the success payload when the response status is
a success, and the error payload decoded from the body otherwise. -/
inductive JsonResult (T E : Type) where
  | ok : T → JsonResult T E
  | err : E → JsonResult T E

/-- `pretend::Result<A>`: either the decoded value or a framework error
(request failure, unexpected status, undecodable body), rendered here by its
display string. -/
inductive PretendResult (A : Type) where
  | ok : A → PretendResult A
  | err : String → PretendResult A

/-- Result of running one client method body: a normal `Result` return, or a
process abort with a message (the Rust `panic!` / `expect` / `todo!` paths). -/
inductive Outcome (A : Type) where
  | returns : Except ArweaveError A → Outcome A
  | panics : String → Outcome A

/-- Outcome of one HTTP exchange at the transport level, as seen by the
`pretend` framework: a response with a success flag for its status code and a
JSON body, or a failure to complete the request. -/
inductive Transport where
  | response : Bool → Json → Transport
  | failed : String → Transport

/-- The three possible results of the envelope-decoding step: the success
payload, the server-reported error payload, or a malformed body. -/
inductive EnvelopeOutcome (T E : Type) where
  | success : T → EnvelopeOutcome T E
  | serverError : E → EnvelopeOutcome T E
  | malformed : EnvelopeOutcome T E

/-- Envelope decoding for a `JsonResult<T, E>` return type, as performed by
the `pretend` framework for the trait methods of get.rs: on a success status
the body is decoded with the success decoder, otherwise with the error
decoder; a body matching neither yields `malformed`. -/
def decodeEnvelope (dT : Json → Option T) (dE : Json → Option E)
    (success : Bool) (body : Json) : EnvelopeOutcome T E :=
  if success then
    match dT body with
    | some t => .success t
    | none => .malformed
  else
    match dE body with
    | some e => .serverError e
    | none => .malformed

/-- Lift the envelope outcome to the `pretend::Result` the trait methods
return: a malformed body becomes a framework error value. -/
def runJsonFetch (dT : Json → Option T) (dE : Json → Option E)
    (t : Transport) : PretendResult (JsonResult T E) :=
  match t with
  | .failed m => .err m
  | .response s body =>
    match decodeEnvelope dT dE s body with
    | .success x => .ok (.ok x)
    | .serverError e => .ok (.err e)
    | .malformed => .err "error decoding response body"

/-- Trait method `tx_get` (get.rs lines 48-49): body decoded as
`JsonResult<TransactionData, ArweaveError>`. The `ArweaveError` body decoder
lives in the missing `src/error.rs` and is kept as a parameter. -/
def tx_get (dE : Json → Option ArweaveError) (t : Transport) :
    PretendResult (JsonResult TransactionData ArweaveError) :=
  runJsonFetch decodeTransactionData dE t

/-- Trait method `tx_status` (get.rs lines 51-52): body decoded as
`JsonResult<TransactionStatusResponse, ArweaveError>`. -/
def tx_status (dE : Json → Option ArweaveError) (t : Transport) :
    PretendResult (JsonResult TransactionStatusResponse ArweaveError) :=
  runJsonFetch decodeTransactionStatusResponse dE t

/-- Transport outcome for the plain-text price endpoint: the body is the raw
response text. -/
inductive TextTransport where
  | response : Bool → String → TextTransport
  | failed : String → TextTransport

/-- Trait method `tx_get_price` (get.rs lines 45-46): a `String` return type,
for which the `pretend` framework yields the body verbatim on a success
status and an error value on a non-success status or a failed request. -/
def tx_get_price : TextTransport → PretendResult String
  | .response true body => .ok body
  | .response false _ => .err "unexpected status code"
  | .failed m => .err m

namespace TransactionInfoClient

/-- Method `get_price` (get.rs lines 64-69): returns the framework result,
mapping a framework error to `ArweaveError::TransactionInfoError` of its
display string. No aborting path exists. -/
def get_price (r : PretendResult String) : Outcome String :=
  match r with
  | .ok body => .returns (.ok body)
  | .err e => .returns (.error (.TransactionInfoError e))

/-- Method `get` (get.rs lines 71-79): on `JsonResult::Ok` returns the
payload; on `JsonResult::Err` the source calls
`panic!("Error parsing info {}", err)`; a framework error is mapped to
`ArweaveError::TransactionInfoError`. -/
def get (r : PretendResult (JsonResult TransactionData ArweaveError)) :
    Outcome TransactionData :=
  match r with
  | .ok (.ok t) => .returns (.ok t)
  | .ok (.err e) => .panics ("Error parsing info " ++ e.display)
  | .err e => .returns (.error (.TransactionInfoError e))

/-- Method `get_status` (get.rs lines 81-89): the source unwraps the
framework result with `expect("Error getting tx status")` (aborting on any
framework error) and reaches `todo!()` on `JsonResult::Err` (aborting on the
server error envelope). -/
def get_status (r : PretendResult (JsonResult TransactionStatusResponse ArweaveError)) :
    Outcome TransactionStatusResponse :=
  match r with
  | .err e => .panics ("Error getting tx status: " ++ e)
  | .ok (.ok n) => .returns (.ok n)
  | .ok (.err _) => .panics "not yet implemented"

end TransactionInfoClient

/-- The fixture transaction of the repository's `test_get` test. -/
def fixtureTx : TransactionData :=
  ⟨2, "arweave_tx_id", "last_tx", "owner", [⟨"name", "value"⟩], "target",
   "quantity", [], "reward", "signature", "data_size", "data_root"⟩

/-- A transaction with duplicate tag names and non-empty byte data. -/
def fixtureDupTx : TransactionData :=
  ⟨2, "arweave_tx_id", "last_tx", "owner",
   [⟨"a", "1"⟩, ⟨"a", "2"⟩, ⟨"a", "1"⟩], "target",
   "quantity", [0, 255, 7], "reward", "signature", "data_size", "data_root"⟩

/-- The fixture status of the repository's `test_get_status` test and of the
spec's section 8. -/
def fixtureStatus : TransactionStatusResponse :=
  ⟨1, some ⟨"h", 10, 10⟩⟩

set_option maxRecDepth 4000

theorem asUsize_natCast (n : Nat) (h : n < usizeMax) :
    Json.asUsize (.num (n : Int)) = some n := by
  show Json.asUsize (.num (Int.ofNat n)) = some n
  simp [Json.asUsize, h]

theorem asByte_natCast (n : Nat) (h : n < 256) :
    Json.asByte (.num (n : Int)) = some n := by
  show Json.asByte (.num (Int.ofNat n)) = some n
  simp [Json.asByte, h]

theorem decodeTag_encodeTag (t : Tag) : decodeTag (encodeTag t) = some t := rfl

theorem decodeSeq_tags (ts : List Tag) :
    decodeSeq decodeTag (ts.map encodeTag) = some ts := by
  induction ts with
  | nil => rfl
  | cons t ts ih =>
    show (decodeTag (encodeTag t)).bind
      (fun x => (decodeSeq decodeTag (ts.map encodeTag)).bind
        (fun xs => some (x :: xs))) = some (t :: ts)
    rw [ih]
    rfl

theorem decodeSeq_bytes (bs : List Nat) (h : ∀ b ∈ bs, b < 256) :
    decodeSeq Json.asByte (bs.map (fun (b : Nat) => Json.num (b : Int))) = some bs := by
  induction bs with
  | nil => rfl
  | cons b bs ih =>
    show (Json.asByte (.num (b : Int))).bind
      (fun x => (decodeSeq Json.asByte (bs.map (fun (b : Nat) => Json.num (b : Int)))).bind
        (fun xs => some (x :: xs))) = some (b :: bs)
    rw [asByte_natCast b (h b (List.mem_cons_self b bs)),
        ih (fun x hx => h x (List.mem_cons_of_mem b hx))]
    rfl

theorem fieldOnce_tx_format (t : TransactionData) :
    Json.fieldOnce (encodeTxFields t) "format" = some (.num (t.format : Int)) := by
  simp [Json.fieldOnce, encodeTxFields]

theorem fieldOnce_tx_id (t : TransactionData) :
    Json.fieldOnce (encodeTxFields t) "id" = some (.str t.id) := by
  simp [Json.fieldOnce, encodeTxFields]

theorem fieldOnce_tx_last_tx (t : TransactionData) :
    Json.fieldOnce (encodeTxFields t) "last_tx" = some (.str t.last_tx) := by
  simp [Json.fieldOnce, encodeTxFields]

theorem fieldOnce_tx_owner (t : TransactionData) :
    Json.fieldOnce (encodeTxFields t) "owner" = some (.str t.owner) := by
  simp [Json.fieldOnce, encodeTxFields]

theorem fieldOnce_tx_tags (t : TransactionData) :
    Json.fieldOnce (encodeTxFields t) "tags" = some (.arr (t.tags.map encodeTag)) := by
  simp [Json.fieldOnce, encodeTxFields]

theorem fieldOnce_tx_target (t : TransactionData) :
    Json.fieldOnce (encodeTxFields t) "target" = some (.str t.target) := by
  simp [Json.fieldOnce, encodeTxFields]

theorem fieldOnce_tx_quantity (t : TransactionData) :
    Json.fieldOnce (encodeTxFields t) "quantity" = some (.str t.quantity) := by
  simp [Json.fieldOnce, encodeTxFields]

theorem fieldOnce_tx_data (t : TransactionData) :
    Json.fieldOnce (encodeTxFields t) "data" =
      some (.arr (t.data.map (fun (b : Nat) => Json.num (b : Int)))) := by
  simp [Json.fieldOnce, encodeTxFields]

theorem fieldOnce_tx_reward (t : TransactionData) :
    Json.fieldOnce (encodeTxFields t) "reward" = some (.str t.reward) := by
  simp [Json.fieldOnce, encodeTxFields]

theorem fieldOnce_tx_signature (t : TransactionData) :
    Json.fieldOnce (encodeTxFields t) "signature" = some (.str t.signature) := by
  simp [Json.fieldOnce, encodeTxFields]

theorem fieldOnce_tx_data_size (t : TransactionData) :
    Json.fieldOnce (encodeTxFields t) "data_size" = some (.str t.data_size) := by
  simp [Json.fieldOnce, encodeTxFields]

theorem fieldOnce_tx_data_root (t : TransactionData) :
    Json.fieldOnce (encodeTxFields t) "data_root" = some (.str t.data_root) := by
  simp [Json.fieldOnce, encodeTxFields]

theorem txField_format (t : TransactionData) :
    (Json.fieldOnce (encodeTxFields t) "format" >>= Json.asUsize) =
      Json.asUsize (.num (t.format : Int)) := by
  rw [fieldOnce_tx_format]; rfl

theorem txField_id (t : TransactionData) :
    (Json.fieldOnce (encodeTxFields t) "id" >>= Json.asString) = some t.id := by
  rw [fieldOnce_tx_id]; rfl

theorem txField_last_tx (t : TransactionData) :
    (Json.fieldOnce (encodeTxFields t) "last_tx" >>= Json.asString) = some t.last_tx := by
  rw [fieldOnce_tx_last_tx]; rfl

theorem txField_owner (t : TransactionData) :
    (Json.fieldOnce (encodeTxFields t) "owner" >>= Json.asString) = some t.owner := by
  rw [fieldOnce_tx_owner]; rfl

theorem txField_tags (t : TransactionData) :
    (Json.fieldOnce (encodeTxFields t) "tags" >>= decodeArrWith decodeTag) =
      decodeSeq decodeTag (t.tags.map encodeTag) := by
  rw [fieldOnce_tx_tags]; rfl

theorem txField_target (t : TransactionData) :
    (Json.fieldOnce (encodeTxFields t) "target" >>= Json.asString) = some t.target := by
  rw [fieldOnce_tx_target]; rfl

theorem txField_quantity (t : TransactionData) :
    (Json.fieldOnce (encodeTxFields t) "quantity" >>= Json.asString) = some t.quantity := by
  rw [fieldOnce_tx_quantity]; rfl

theorem txField_data (t : TransactionData) :
    (Json.fieldOnce (encodeTxFields t) "data" >>= decodeArrWith Json.asByte) =
      decodeSeq Json.asByte (t.data.map (fun (b : Nat) => Json.num (b : Int))) := by
  rw [fieldOnce_tx_data]; rfl

theorem txField_reward (t : TransactionData) :
    (Json.fieldOnce (encodeTxFields t) "reward" >>= Json.asString) = some t.reward := by
  rw [fieldOnce_tx_reward]; rfl

theorem txField_signature (t : TransactionData) :
    (Json.fieldOnce (encodeTxFields t) "signature" >>= Json.asString) = some t.signature := by
  rw [fieldOnce_tx_signature]; rfl

theorem txField_data_size (t : TransactionData) :
    (Json.fieldOnce (encodeTxFields t) "data_size" >>= Json.asString) = some t.data_size := by
  rw [fieldOnce_tx_data_size]; rfl

theorem txField_data_root (t : TransactionData) :
    (Json.fieldOnce (encodeTxFields t) "data_root" >>= Json.asString) = some t.data_root := by
  rw [fieldOnce_tx_data_root]; rfl

/-- Round trip for `TransactionData`: decoding the serialization of any
value whose numeric fields fit their Rust types gives the value back. -/
theorem decode_encode_td (td : TransactionData)
    (hf : td.format < usizeMax) (hd : ∀ b ∈ td.data, b < 256) :
    decodeTransactionData (encodeTransactionData td) = some td := by
  rw [encodeTransactionData, decodeTransactionData,
      txField_format, asUsize_natCast td.format hf,
      txField_id, txField_last_tx, txField_owner,
      txField_tags, decodeSeq_tags td.tags,
      txField_target, txField_quantity,
      txField_data, decodeSeq_bytes td.data hd,
      txField_reward, txField_signature, txField_data_size, txField_data_root]
  rfl

theorem fieldOnce_conf_hash (c : TransactionConfirmedData) :
    Json.fieldOnce (encodeConfirmedFields c) "block_indep_hash" =
      some (.str c.block_indep_hash) := by
  simp [Json.fieldOnce, encodeConfirmedFields]

theorem fieldOnce_conf_height (c : TransactionConfirmedData) :
    Json.fieldOnce (encodeConfirmedFields c) "block_height" =
      some (.num (c.block_height : Int)) := by
  simp [Json.fieldOnce, encodeConfirmedFields]

theorem fieldOnce_conf_confs (c : TransactionConfirmedData) :
    Json.fieldOnce (encodeConfirmedFields c) "number_of_confirmations" =
      some (.num (c.number_of_confirmations : Int)) := by
  simp [Json.fieldOnce, encodeConfirmedFields]

theorem confField_hash (c : TransactionConfirmedData) :
    (Json.fieldOnce (encodeConfirmedFields c) "block_indep_hash" >>= Json.asString) =
      some c.block_indep_hash := by
  rw [fieldOnce_conf_hash]; rfl

theorem confField_height (c : TransactionConfirmedData) :
    (Json.fieldOnce (encodeConfirmedFields c) "block_height" >>= Json.asUsize) =
      Json.asUsize (.num (c.block_height : Int)) := by
  rw [fieldOnce_conf_height]; rfl

theorem confField_confs (c : TransactionConfirmedData) :
    (Json.fieldOnce (encodeConfirmedFields c) "number_of_confirmations" >>= Json.asUsize) =
      Json.asUsize (.num (c.number_of_confirmations : Int)) := by
  rw [fieldOnce_conf_confs]; rfl

/-- Round trip for `TransactionConfirmedData`. -/
theorem decode_encode_confirmed (c : TransactionConfirmedData)
    (h1 : c.block_height < usizeMax) (h2 : c.number_of_confirmations < usizeMax) :
    decodeTransactionConfirmedData (encodeTransactionConfirmedData c) = some c := by
  rw [encodeTransactionConfirmedData, decodeTransactionConfirmedData,
      confField_hash, confField_height, asUsize_natCast c.block_height h1,
      confField_confs, asUsize_natCast c.number_of_confirmations h2]
  rfl

theorem fieldOnce_st_status (r : TransactionStatusResponse) :
    Json.fieldOnce (encodeStatusFields r) "status" = some (.num (r.status : Int)) := by
  simp [Json.fieldOnce, encodeStatusFields]

theorem stField_status (r : TransactionStatusResponse) :
    (Json.fieldOnce (encodeStatusFields r) "status" >>= Json.asUsize) =
      Json.asUsize (.num (r.status : Int)) := by
  rw [fieldOnce_st_status]; rfl

theorem fieldOpt_st_confirmed_none (st : Nat) :
    Json.fieldOpt (encodeStatusFields ⟨st, none⟩) "confirmed" = some (some Json.null) := by
  simp [Json.fieldOpt, encodeStatusFields]

theorem fieldOpt_st_confirmed_some (st : Nat) (c : TransactionConfirmedData) :
    Json.fieldOpt (encodeStatusFields ⟨st, some c⟩) "confirmed" =
      some (some (encodeTransactionConfirmedData c)) := by
  simp [Json.fieldOpt, encodeStatusFields]

theorem decodeOptField_encodeConfirmed (c : TransactionConfirmedData) :
    decodeOptField decodeTransactionConfirmedData (some (encodeTransactionConfirmedData c)) =
      (decodeTransactionConfirmedData (encodeTransactionConfirmedData c)).map some := rfl

/-- Round trip for `TransactionStatusResponse`, both with and without the
optional `confirmed` payload. -/
theorem decode_encode_status (r : TransactionStatusResponse)
    (hs : r.status < usizeMax)
    (hc : ∀ c, r.confirmed = some c →
      c.block_height < usizeMax ∧ c.number_of_confirmations < usizeMax) :
    decodeTransactionStatusResponse (encodeTransactionStatusResponse r) = some r := by
  obtain ⟨st, c⟩ := r
  cases c with
  | none =>
    rw [encodeTransactionStatusResponse, decodeTransactionStatusResponse,
        stField_status ⟨st, none⟩, asUsize_natCast st hs,
        fieldOpt_st_confirmed_none st]
    rfl
  | some cd =>
    have hcd := hc cd rfl
    rw [encodeTransactionStatusResponse, decodeTransactionStatusResponse,
        stField_status ⟨st, some cd⟩, asUsize_natCast st hs,
        fieldOpt_st_confirmed_some st cd]
    simp only [Option.bind_eq_bind, Option.some_bind]
    rw [decodeOptField_encodeConfirmed cd, decode_encode_confirmed cd hcd.1 hcd.2]
    rfl

theorem asUsize_bound (j : Json) (m : Nat) (h : Json.asUsize j = some m) :
    m < usizeMax := by
  cases j with
  | num n =>
    cases n with
    | ofNat k =>
      simp only [Json.asUsize] at h
      split at h
      · cases h; assumption
      · cases h
    | negSucc k => simp [Json.asUsize] at h
  | null => simp [Json.asUsize] at h
  | bool b => simp [Json.asUsize] at h
  | str s => simp [Json.asUsize] at h
  | arr xs => simp [Json.asUsize] at h
  | obj fs => simp [Json.asUsize] at h

theorem asByte_bound (j : Json) (m : Nat) (h : Json.asByte j = some m) :
    m < 256 := by
  cases j with
  | num n =>
    cases n with
    | ofNat k =>
      simp only [Json.asByte] at h
      split at h
      · cases h; assumption
      · cases h
    | negSucc k => simp [Json.asByte] at h
  | null => simp [Json.asByte] at h
  | bool b => simp [Json.asByte] at h
  | str s => simp [Json.asByte] at h
  | arr xs => simp [Json.asByte] at h
  | obj fs => simp [Json.asByte] at h

theorem decodeSeq_bytes_bound (xs : List Json) (bs : List Nat)
    (h : decodeSeq Json.asByte xs = some bs) : ∀ b ∈ bs, b < 256 := by
  induction xs generalizing bs with
  | nil =>
    simp only [decodeSeq] at h
    cases h
    intro b hb
    cases hb
  | cons j js ih =>
    simp only [decodeSeq, Option.bind_eq_bind, Option.bind_eq_some,
      Option.pure_def, Option.some.injEq] at h
    obtain ⟨x, hx, xs', hxs', rfl⟩ := h
    intro b hb
    cases hb with
    | head => exact asByte_bound j _ hx
    | tail _ hmem => exact ih xs' hxs' b hmem

theorem decodeArrWith_inv (d : Json → Option α) (j : Json) (xs : List α)
    (h : decodeArrWith d j = some xs) :
    ∃ ys, j = .arr ys ∧ decodeSeq d ys = some xs := by
  cases j with
  | arr ys => exact ⟨ys, rfl, h⟩
  | null => simp [decodeArrWith] at h
  | bool b => simp [decodeArrWith] at h
  | num n => simp [decodeArrWith] at h
  | str s => simp [decodeArrWith] at h
  | obj fs => simp [decodeArrWith] at h

/-- Inversion of a successful `TransactionData` decode: the decoded numeric
fields are in range, the body was an object, and the tag list came from the
elementwise decode of the array bound to the `tags` field. -/
theorem decodeTransactionData_inv (j : Json) (t : TransactionData)
    (h : decodeTransactionData j = some t) :
    t.format < usizeMax ∧ (∀ b ∈ t.data, b < 256) ∧
      ∃ fields js, j = .obj fields ∧
        Json.fieldOnce fields "tags" = some (.arr js) ∧
        decodeSeq decodeTag js = some t.tags := by
  cases j with
  | obj fields =>
    simp only [decodeTransactionData, Option.bind_eq_bind, Option.bind_eq_some,
      Option.pure_def, Option.some.injEq] at h
    obtain ⟨f, ⟨jf, hjf, hf⟩, i, ⟨ji, hji, hi⟩, lt, ⟨jl, hjl, hl⟩, ow, ⟨jo, hjo, ho⟩,
      tg, ⟨jt, hjt, ht⟩, ta, ⟨jta, hjta, hta⟩, qt, ⟨jq, hjq, hq⟩,
      dt, ⟨jd, hjd, hdt⟩, re, ⟨jr, hjr, hr⟩, sg, ⟨js, hjs, hs⟩,
      dsz, ⟨jds, hjds, hds⟩, drt, ⟨jdr, hjdr, hdr⟩, rfl⟩ := h
    obtain ⟨ys, rfl, hys⟩ := decodeArrWith_inv decodeTag jt tg ht
    refine ⟨asUsize_bound jf f hf, ?_, fields, ys, rfl, hjt, hys⟩
    intro b hb
    obtain ⟨zs, rfl, hzs⟩ := decodeArrWith_inv Json.asByte jd dt hdt
    exact decodeSeq_bytes_bound zs dt hzs b hb
  | null => simp [decodeTransactionData] at h
  | bool b => simp [decodeTransactionData] at h
  | num n => simp [decodeTransactionData] at h
  | str s => simp [decodeTransactionData] at h
  | arr xs => simp [decodeTransactionData] at h

theorem decodeSeq_length (d : Json → Option α) (xs : List Json) (ys : List α)
    (h : decodeSeq d xs = some ys) : xs.length = ys.length := by
  induction xs generalizing ys with
  | nil => simp only [decodeSeq] at h; cases h; rfl
  | cons j js ih =>
    simp only [decodeSeq, Option.bind_eq_bind, Option.bind_eq_some,
      Option.pure_def, Option.some.injEq] at h
    obtain ⟨x, hx, xs', hxs', rfl⟩ := h
    simp [ih xs' hxs']

/-- Claim C1: the claim states that `get` turns a server-error envelope into
a `ProtocolError` returned as a normal error value and never aborts. The
source instead reaches `panic!("Error parsing info {}", err)` on
`JsonResult::Err`: evaluated at a server-error response, the call aborts the
process. The claim describes the spec's stated intent; the code contradicts
it (a defect the spec itself flags in section 9). -/
theorem claim_C1 :
    TransactionInfoClient.get (.ok (.err (.TransactionInfoError "unknown transaction id"))) =
      .panics "Error parsing info unknown transaction id" := rfl

/-- Claim C2: the claim states that `get_status` turns a server-error
envelope (pending or unknown transaction) into a typed error returned
normally. The source instead reaches `todo!()` on `JsonResult::Err`:
evaluated at a server-error response, the call aborts the process. -/
theorem claim_C2 :
    TransactionInfoClient.get_status (.ok (.err (.TransactionInfoError "pending"))) =
      .panics "not yet implemented" := rfl

/-- Claim C3: the claim states that all three operations return a typed
error value on a transport-level failure. `get_price` and `get` do map the
framework error into `ArweaveError::TransactionInfoError` and return it, but
`get_status` unwraps the framework result with
`expect("Error getting tx status")` and aborts the process on the same
input, refuting the claim for one of the three operations. -/
theorem claim_C3 :
    TransactionInfoClient.get_price (.err "connection refused") =
        .returns (.error (.TransactionInfoError "connection refused")) ∧
    TransactionInfoClient.get (.err "connection refused") =
        .returns (.error (.TransactionInfoError "connection refused")) ∧
    TransactionInfoClient.get_status (.err "connection refused") =
        .panics "Error getting tx status: connection refused" :=
  ⟨rfl, rfl, rfl⟩

/-- Claim C4: for every response body handled by the envelope decoding of
the `JsonResult` trait methods, the result is exactly one of the three
outcomes success, server error, or malformed — a value, never a propagated
decode exception. -/
theorem claim_C4 {T E : Type} (dT : Json → Option T) (dE : Json → Option E)
    (s : Bool) (body : Json) :
    (∃ t, decodeEnvelope dT dE s body = .success t) ∨
    (∃ e, decodeEnvelope dT dE s body = .serverError e) ∨
    decodeEnvelope dT dE s body = .malformed := by
  cases s with
  | true =>
    cases hdT : dT body with
    | some t => exact .inl ⟨t, by simp [decodeEnvelope, hdT]⟩
    | none => exact .inr (.inr (by simp [decodeEnvelope, hdT]))
  | false =>
    cases hdE : dE body with
    | some e => exact .inr (.inl ⟨e, by simp [decodeEnvelope, hdE]⟩)
    | none => exact .inr (.inr (by simp [decodeEnvelope, hdE]))

/-- Claim C5: `get_price` returns the gateway's response body verbatim as a
string, with no numeric parsing or reformatting; in particular a success
body "123123" yields exactly the success value "123123". -/
theorem claim_C5 :
    (∀ body : String, TransactionInfoClient.get_price (.ok body) = .returns (.ok body)) ∧
    TransactionInfoClient.get_price (tx_get_price (.response true "123123")) =
      .returns (.ok "123123") :=
  ⟨fun _ => rfl, rfl⟩

/-- Claim C6: for every `TransactionData` whose JSON serialization the
gateway returns with a success status, `get` returns a value equal to it
field for field, including tag order and the raw bytes of `data` (the
sub-claims are the hypotheses that the numeric fields fit their Rust
types, which every value serialized by the real program satisfies). -/
theorem claim_C6 (dE : Json → Option ArweaveError) (td : TransactionData)
    (hf : td.format < usizeMax) (hd : ∀ b ∈ td.data, b < 256) :
    TransactionInfoClient.get (tx_get dE (.response true (encodeTransactionData td))) =
      .returns (.ok td) := by
  have henv : decodeEnvelope decodeTransactionData dE true (encodeTransactionData td) =
      .success td := by
    simp [decodeEnvelope, decode_encode_td td hf hd]
  show TransactionInfoClient.get
    (runJsonFetch decodeTransactionData dE (.response true (encodeTransactionData td))) =
      .returns (.ok td)
  rw [runJsonFetch, henv]
  rfl

/-- Witness for claim C6 at the repository's own test fixture. -/
theorem claim_C6_witness :
    TransactionInfoClient.get
      (tx_get (fun _ => none) (.response true (encodeTransactionData fixtureTx))) =
      .returns (.ok fixtureTx) :=
  claim_C6 (fun _ => none) fixtureTx (by decide) (by decide)

/-- Claim C7: for every JSON value matching the `TransactionData` schema
(that is, every value the decoder accepts), decode, re-encode, decode gives
back the result of the first decode. -/
theorem claim_C7 (j : Json) (t : TransactionData)
    (h : decodeTransactionData j = some t) :
    decodeTransactionData (encodeTransactionData t) = some t := by
  obtain ⟨hf, hd, -⟩ := decodeTransactionData_inv j t h
  exact decode_encode_td t hf hd

/-- Witness for claim C7 at a fixture with duplicate tag names and
non-empty byte data. -/
theorem claim_C7_witness :
    decodeTransactionData (encodeTransactionData fixtureDupTx) = some fixtureDupTx :=
  claim_C7 (encodeTransactionData fixtureDupTx) fixtureDupTx (by decide)

/-- Claim C8: for every `TransactionStatusResponse` whose serialization the
gateway returns with a success status, `get_status` yields a value with
identical fields; `confirmed` is an `Option` and both the absent and the
present case round-trip. -/
theorem claim_C8 (dE : Json → Option ArweaveError) (r : TransactionStatusResponse)
    (hs : r.status < usizeMax)
    (hc : ∀ c, r.confirmed = some c →
      c.block_height < usizeMax ∧ c.number_of_confirmations < usizeMax) :
    TransactionInfoClient.get_status
      (tx_status dE (.response true (encodeTransactionStatusResponse r))) =
      .returns (.ok r) := by
  have henv : decodeEnvelope decodeTransactionStatusResponse dE true
      (encodeTransactionStatusResponse r) = .success r := by
    simp [decodeEnvelope, decode_encode_status r hs hc]
  show TransactionInfoClient.get_status
    (runJsonFetch decodeTransactionStatusResponse dE
      (.response true (encodeTransactionStatusResponse r))) = .returns (.ok r)
  rw [runJsonFetch, henv]
  rfl

/-- Witness for claim C8 at the spec's fixture
status 1, confirmed block_height 10, number_of_confirmations 10, hash "h". -/
theorem claim_C8_witness :
    TransactionInfoClient.get_status
      (tx_status (fun _ => none) (.response true (encodeTransactionStatusResponse fixtureStatus))) =
      .returns (.ok fixtureStatus) :=
  claim_C8 (fun _ => none) fixtureStatus (by decide)
    (fun c hc => by injection hc with h2; rw [← h2]; exact ⟨by decide, by decide⟩)

/-- Claim C9: for every decoded transaction, the tag sequence is exactly the
elementwise decode, in order, of the JSON array received under the "tags"
key — the order is preserved and every element is retained (the lengths are
equal), so duplicate names are not deduplicated. -/
theorem claim_C9 (fields : List (String × Json)) (t : TransactionData)
    (h : decodeTransactionData (.obj fields) = some t) :
    ∃ js, Json.fieldOnce fields "tags" = some (.arr js) ∧
      decodeSeq decodeTag js = some t.tags ∧ js.length = t.tags.length := by
  obtain ⟨-, -, fields', js, heq, hft, hdec⟩ := decodeTransactionData_inv (.obj fields) t h
  cases heq
  exact ⟨js, hft, hdec, decodeSeq_length decodeTag js t.tags hdec⟩

/-- Witness for claim C9 at a fixture whose tag list holds three tags with
the duplicate name "a". -/
theorem claim_C9_witness :
    ∃ js, Json.fieldOnce (encodeTxFields fixtureDupTx) "tags" = some (.arr js) ∧
      decodeSeq decodeTag js = some fixtureDupTx.tags ∧
      js.length = fixtureDupTx.tags.length :=
  claim_C9 (encodeTxFields fixtureDupTx) fixtureDupTx (by decide)

/-- Claim C10: `get_price` is total — on every transport outcome it returns,
never aborting: the body on success and a `TransactionInfoError` wrapping
the failure message otherwise — unlike `get` and `get_status`, each of which
has an aborting path. -/
theorem claim_C10 :
    (∀ r : PretendResult String, ∃ res, TransactionInfoClient.get_price r = .returns res) ∧
    (∀ body, TransactionInfoClient.get_price (.ok body) = .returns (.ok body)) ∧
    (∀ m, TransactionInfoClient.get_price (.err m) =
      .returns (.error (.TransactionInfoError m))) ∧
    (∃ r m, TransactionInfoClient.get r = .panics m) ∧
    (∃ r m, TransactionInfoClient.get_status r = .panics m) := by
  refine ⟨fun r => ?_, fun _ => rfl, fun _ => rfl,
    ⟨.ok (.err (.TransactionInfoError "e")), _, rfl⟩,
    ⟨.err "e", _, rfl⟩⟩
  cases r with
  | ok body => exact ⟨.ok body, rfl⟩
  | err m => exact ⟨.error (.TransactionInfoError m), rfl⟩

end ArweaveRs
